import Mathlib

/-!
Shallow embedding of the `jackfield_labeler` model layer
(`src/jackfield_labeler/models/`): `Color`, `TextFormat`, `Segment` and its
three variants, `StripSettings`, and `LabelStrip`, together with the
dictionary (de)serialization used for project files.

Modelling conventions:
* Python floats are modelled as exact rationals (`ℚ`); `round(x, 3)` is
  modelled as rounding to the nearest multiple of 1/1000 with ties to even,
  which is Python's round-half-even rule.
* Python exceptions are modelled with `Except StripError` (mutators) or
  `Option` (parsers, where only success/failure matters).
* In-place mutation is modelled by returning the updated value.
-/

namespace Jackfield

/-- Python `round(q, 3)`: nearest multiple of 1/1000, ties to even
(Python's round-half-even rule, on the exact rational value). -/
def pyRound3 (q : ℚ) : ℚ :=
  if q * 1000 - ⌊q * 1000⌋ < 1/2 then (⌊q * 1000⌋ : ℚ) / 1000
  else if 1/2 < q * 1000 - ⌊q * 1000⌋ then ((⌊q * 1000⌋ + 1 : ℤ) : ℚ) / 1000
  else if ⌊q * 1000⌋ % 2 = 0 then (⌊q * 1000⌋ : ℚ) / 1000
  else ((⌊q * 1000⌋ + 1 : ℤ) : ℚ) / 1000

/-- Characters Python's `int(·, 16)` strips as surrounding whitespace
(the ASCII ones; unicode spaces never arise in the strings modelled here). -/
def isPySpace (c : Char) : Bool :=
  c == ' ' || c == '\t' || c == '\n' || c == '\r' || c == '\x0b' || c == '\x0c'

/-- Value of a single hexadecimal digit character, upper or lower case. -/
def hexDigitVal (c : Char) : Option Nat :=
  if '0' ≤ c ∧ c ≤ '9' then some (c.toNat - '0'.toNat)
  else if 'a' ≤ c ∧ c ≤ 'f' then some (c.toNat - 'a'.toNat + 10)
  else if 'A' ≤ c ∧ c ≤ 'F' then some (c.toNat - 'A'.toNat + 10)
  else none

/-- Parse a nonempty run of hex digits as a natural number. -/
def parseHexNat : List Char → Option Nat
  | [] => none
  | l => l.foldlM (fun acc c => (hexDigitVal c).map (fun d => acc * 16 + d)) 0

/-- Strip leading and trailing whitespace, as Python `int` does. -/
def pyTrim (l : List Char) : List Char :=
  ((l.dropWhile isPySpace).reverse.dropWhile isPySpace).reverse

/-- Python `int(s, 16)` restricted to the short slices `Color.from_hex`
feeds it: optional surrounding whitespace, an optional single sign, then a
nonempty run of hex digits.  (Python additionally accepts a `0x` prefix and
underscore digit separators, but neither can occur in a successful parse of
the at-most-two-character slices used below.) -/
def pyIntHex (s : String) : Option Int :=
  match pyTrim s.toList with
  | [] => none
  | c :: rest =>
    if c = '+' then (parseHexNat rest).map Int.ofNat
    else if c = '-' then (parseHexNat rest).map (fun n => -(n : Int))
    else (parseHexNat (c :: rest)).map Int.ofNat

/-- Python slice `s[a:b]` for `0 ≤ a ≤ b` (out-of-range indices clamp). -/
def pySlice (s : String) (a b : Nat) : String :=
  String.mk ((s.toList.drop a).take (b - a))

/-- Lowercase hex digits of `n`, most significant first (`Nat.toDigits 16`
uses the lowercase alphabet, matching Python's `%x`). -/
def natHexStr (n : Nat) : String :=
  String.mk (Nat.toDigits 16 n)

/-- Python format `f"{n:02x}"`: lowercase hex padded with zeros to total
width 2, the sign (for negatives) counting toward the width. -/
def format02x (n : Int) : String :=
  if 0 ≤ n then
    let d := natHexStr n.toNat
    (if d.length < 2 then "0" else "") ++ d
  else
    let d := natHexStr (-n).toNat
    "-" ++ d

/-- `models/color.py`: `Color` dataclass with integer channels. -/
structure Color where
  r : Int := 0
  g : Int := 0
  b : Int := 0
  deriving DecidableEq, Repr

namespace Color

/-- `Color.from_hex`: strip leading `#` characters (`str.lstrip("#")`
removes every leading `#`), then parse slices `[0:2]`, `[2:4]`, `[4:6]`
with `int(·, 16)`; any failing slice raises `ValueError` (modelled `none`). -/
def from_hex (hex_color : String) : Option Color :=
  let t := String.mk (hex_color.toList.dropWhile (· = '#'))
  do
    let r ← pyIntHex (pySlice t 0 2)
    let g ← pyIntHex (pySlice t 2 4)
    let b ← pyIntHex (pySlice t 4 6)
    pure { r := r, g := g, b := b }

/-- `Color.to_hex`: `f"#{r:02x}{g:02x}{b:02x}"`. -/
def to_hex (c : Color) : String :=
  "#" ++ format02x c.r ++ format02x c.g ++ format02x c.b

/-- `Color.to_rgb_tuple`. -/
def to_rgb_tuple (c : Color) : Int × Int × Int := (c.r, c.g, c.b)

/-- All channels in the byte range, the `Color` data-model invariant. -/
def Valid (c : Color) : Prop :=
  0 ≤ c.r ∧ c.r ≤ 255 ∧ 0 ≤ c.g ∧ c.g ≤ 255 ∧ 0 ≤ c.b ∧ c.b ≤ 255

instance : DecidablePred Valid := fun c => by unfold Valid; infer_instance

end Color

/-- `BLACK = Color.from_standard(StandardColor.BLACK)`, i.e. `#000000`. -/
def BLACK : Color := { r := 0, g := 0, b := 0 }

/-- `WHITE = Color.from_standard(StandardColor.WHITE)`, i.e. `#FFFFFF`. -/
def WHITE : Color := { r := 255, g := 255, b := 255 }

example : Color.from_hex "#000000" = some BLACK := by decide
example : Color.from_hex "#FFFFFF" = some WHITE := by decide
example : Color.from_hex "invalid" = none := by decide
example : Color.from_hex "#FF0000" = some { r := 255, g := 0, b := 0 } := by decide
example : Color.to_hex { r := 255, g := 0, b := 0 } = "#ff0000" := by decide

/-- Python `str.lower` on the ASCII strings appearing here. -/
def pyLower (s : String) : String :=
  String.mk (s.toList.map Char.toLower)

/-- Python `str.upper` on the ASCII strings appearing here. -/
def pyUpper (s : String) : String :=
  String.mk (s.toList.map Char.toUpper)

/-- `models/text_format.py`: the `TextFormat` enum. -/
inductive TextFormat where
  | NORMAL
  | BOLD
  | ITALIC
  | BOLD_ITALIC
  deriving DecidableEq, Repr

namespace TextFormat

/-- The Python enum member's `.name`. -/
def name : TextFormat → String
  | NORMAL => "NORMAL"
  | BOLD => "BOLD"
  | ITALIC => "ITALIC"
  | BOLD_ITALIC => "BOLD_ITALIC"

/-- `TextFormat[s]` with the `except KeyError: NORMAL` fallback used by
every segment `from_dict`. -/
def ofName (s : String) : TextFormat :=
  if s = "NORMAL" then NORMAL
  else if s = "BOLD" then BOLD
  else if s = "ITALIC" then ITALIC
  else if s = "BOLD_ITALIC" then BOLD_ITALIC
  else NORMAL

end TextFormat

/-- `models/strip_settings.py`: the `PaperSize` enum. -/
inductive PaperSize where
  | A4 | A3 | A2 | A1 | A0 | LETTER | LEGAL | TABLOID
  deriving DecidableEq, Repr

namespace PaperSize

/-- The Python enum member's `.value`. -/
def value : PaperSize → String
  | A4 => "A4"
  | A3 => "A3"
  | A2 => "A2"
  | A1 => "A1"
  | A0 => "A0"
  | LETTER => "Letter"
  | LEGAL => "Legal"
  | TABLOID => "Tabloid"

/-- `PaperSize(s)`: value lookup, raising `ValueError` (`none`) on an
unknown value. -/
def ofValue (s : String) : Option PaperSize :=
  if s = "A4" then some A4
  else if s = "A3" then some A3
  else if s = "A2" then some A2
  else if s = "A1" then some A1
  else if s = "A0" then some A0
  else if s = "Letter" then some LETTER
  else if s = "Legal" then some LEGAL
  else if s = "Tabloid" then some TABLOID
  else none

end PaperSize

/-- `models/strip_settings.py`: `PageMargins` dataclass. -/
structure PageMargins where
  top : ℚ := 10
  right : ℚ := 10
  bottom : ℚ := 10
  left : ℚ := 10
  deriving DecidableEq, Repr

/-- `models/strip_settings.py`: `StripSettings` dataclass. -/
structure StripSettings where
  paper_size : PaperSize := .A4
  page_margins : PageMargins := {}
  default_font_name : String := "Arial"
  default_font_size : ℚ := 8
  default_text_color : Color := BLACK
  default_background_color : Color := WHITE
  deriving DecidableEq, Repr

/-- The Python exceptions raised by the model layer
(`models/exceptions.py`). -/
inductive StripError where
  | contentCellWidth
  | segmentWidth
  | startSegmentWidth
  | endSegmentWidth
  | contentSegmentCount
  | unknownSegmentType
  deriving DecidableEq, Repr

/-- `models/segment.py`: the data carried by every `Segment`.  The Python
variant (subclass) is determined by how the segment was constructed and is
recovered from its position in the strip / its serialized `type` tag. -/
structure Segment where
  id : String
  text : String := ""
  width : ℚ := 0
  text_format : TextFormat := .NORMAL
  text_color : Color := BLACK
  background_color : Color := WHITE
  deriving DecidableEq, Repr

namespace Segment

/-- The `Segment.width` setter: rejects negative widths, stores
`round(value, 3)`. -/
def setWidth (s : Segment) (value : ℚ) : Except StripError Segment :=
  if value < 0 then .error .segmentWidth
  else .ok { s with width := pyRound3 value }

end Segment

/-- `StartSegment.__init__`: fixes the id to `"L_START"` and stores the
width unvalidated and unrounded (the base `__init__` writes `self._width`
directly, bypassing the setter). -/
def StartSegment.make (width : ℚ := 0) (text : String := "")
    (text_format : TextFormat := .NORMAL) (text_color : Color := BLACK)
    (background_color : Color := WHITE) : Segment :=
  { id := "L_START", text := text, width := width, text_format := text_format,
    text_color := text_color, background_color := background_color }

/-- `ContentSegment.__init__`: caller-chosen id, width stored unvalidated. -/
def ContentSegment.make (segment_id : String) (width : ℚ) (text : String := "")
    (text_format : TextFormat := .NORMAL) (text_color : Color := BLACK)
    (background_color : Color := WHITE) : Segment :=
  { id := segment_id, text := text, width := width, text_format := text_format,
    text_color := text_color, background_color := background_color }

/-- `EndSegment.__init__`: fixes the id to `"L_END"`, width unvalidated. -/
def EndSegment.make (width : ℚ := 0) (text : String := "")
    (text_format : TextFormat := .NORMAL) (text_color : Color := BLACK)
    (background_color : Color := WHITE) : Segment :=
  { id := "L_END", text := text, width := width, text_format := text_format,
    text_color := text_color, background_color := background_color }

/-- The dictionary produced/consumed by `Segment.to_dict` / the segment
`from_dict` classmethods.  Fields are `Option` so that `data.get(key,
default)` on a possibly-absent key is expressible. -/
structure SegmentDict where
  id : Option String := none
  type : Option String := none
  text : Option String := none
  width : Option ℚ := none
  text_format : Option String := none
  text_color : Option String := none
  background_color : Option String := none
  deriving DecidableEq, Repr

/-- `Segment.to_dict`; `ty` is what the variant's `get_type()` returns
(`"start"`, `"content"` or `"end"`). -/
def Segment.to_dict (ty : String) (s : Segment) : SegmentDict :=
  { id := some s.id, type := some ty, text := some s.text,
    width := some s.width, text_format := some s.text_format.name,
    text_color := some s.text_color.to_hex,
    background_color := some s.background_color.to_hex }

/-- The shared `from_dict` preamble: `TextFormat[data.get("text_format",
"NORMAL").upper()]` with `NORMAL` fallback on `KeyError`. -/
def readTextFormat (d : SegmentDict) : TextFormat :=
  TextFormat.ofName (pyUpper (d.text_format.getD "NORMAL"))

/-- `StartSegment.from_dict`.  `none` models the `ValueError` escaping from
`Color.from_hex` on a malformed color field. -/
def StartSegment.from_dict (d : SegmentDict) : Option Segment := do
  let tc ← Color.from_hex (d.text_color.getD "#000000")
  let bc ← Color.from_hex (d.background_color.getD "#FFFFFF")
  pure (StartSegment.make (d.width.getD 0) (d.text.getD "")
    (readTextFormat d) tc bc)

/-- `ContentSegment.from_dict`. -/
def ContentSegment.from_dict (d : SegmentDict) : Option Segment := do
  let tc ← Color.from_hex (d.text_color.getD "#000000")
  let bc ← Color.from_hex (d.background_color.getD "#FFFFFF")
  pure (ContentSegment.make (d.id.getD "0") (d.width.getD 10) (d.text.getD "")
    (readTextFormat d) tc bc)

/-- `EndSegment.from_dict`. -/
def EndSegment.from_dict (d : SegmentDict) : Option Segment := do
  let tc ← Color.from_hex (d.text_color.getD "#000000")
  let bc ← Color.from_hex (d.background_color.getD "#FFFFFF")
  pure (EndSegment.make (d.width.getD 0) (d.text.getD "")
    (readTextFormat d) tc bc)

/-- `segment_types.create_segment_from_dict`: route on
`data.get("type", "").lower()`; an unknown type raises
`UnknownSegmentTypeError` (collapsed into `none` here, as the callers of
interest only distinguish success from failure). -/
def create_segment_from_dict (d : SegmentDict) : Option Segment :=
  let ty := pyLower (d.type.getD "")
  if ty = "start" then StartSegment.from_dict d
  else if ty = "content" then ContentSegment.from_dict d
  else if ty = "end" then EndSegment.from_dict d
  else none

/-- The dictionary of `StripSettings.to_dict` / `from_dict`
(`page_margins` is itself a dict of the four sides). -/
structure MarginsDict where
  top : Option ℚ := none
  right : Option ℚ := none
  bottom : Option ℚ := none
  left : Option ℚ := none
  deriving DecidableEq, Repr

structure SettingsDict where
  paper_size : Option String := none
  page_margins : Option MarginsDict := none
  default_font_name : Option String := none
  default_font_size : Option ℚ := none
  default_text_color : Option String := none
  default_background_color : Option String := none
  deriving DecidableEq, Repr

/-- `StripSettings.to_dict`. -/
def StripSettings.to_dict (s : StripSettings) : SettingsDict :=
  let md : MarginsDict :=
    { top := some s.page_margins.top, right := some s.page_margins.right,
      bottom := some s.page_margins.bottom, left := some s.page_margins.left }
  { paper_size := some s.paper_size.value,
    page_margins := some md,
    default_font_name := some s.default_font_name,
    default_font_size := some s.default_font_size,
    default_text_color := some s.default_text_color.to_hex,
    default_background_color := some s.default_background_color.to_hex }

/-- `StripSettings.from_dict`; `none` models a `ValueError` from
`PaperSize(...)` or `Color.from_hex`. -/
def StripSettings.from_dict (d : SettingsDict) : Option StripSettings := do
  let md := d.page_margins.getD {}
  let margins : PageMargins :=
    { top := md.top.getD 10, right := md.right.getD 10,
      bottom := md.bottom.getD 10, left := md.left.getD 10 }
  let ps ← PaperSize.ofValue (d.paper_size.getD "A4")
  let tc ← Color.from_hex (d.default_text_color.getD "#000000")
  let bc ← Color.from_hex (d.default_background_color.getD "#FFFFFF")
  pure { paper_size := ps, page_margins := margins,
         default_font_name := d.default_font_name.getD "Arial",
         default_font_size := d.default_font_size.getD 8,
         default_text_color := tc, default_background_color := bc }

/-- The dictionary of `LabelStrip.to_dict` / `from_dict`. -/
structure StripDict where
  height : Option ℚ := none
  content_cell_width : Option ℚ := none
  segments : Option (List SegmentDict) := none
  settings : Option SettingsDict := none
  deriving DecidableEq, Repr

/-- `models/label_strip.py`: the `LabelStrip` aggregate. -/
structure LabelStrip where
  height : ℚ
  start_segment : Option Segment := none
  end_segment : Option Segment := none
  content_segments : List Segment := []
  content_cell_width : ℚ := 10
  settings : StripSettings := {}
  deriving DecidableEq, Repr

namespace LabelStrip

def MIN_HEIGHT : ℚ := 5
def MAX_HEIGHT : ℚ := 12
def MAX_WIDTH : ℚ := 500

/-- `LabelStrip.__init__`: clamps the height, starts with no caps, no
content cells, shared width 10 and default settings. -/
def init (height : ℚ := 5) : LabelStrip :=
  { height := max MIN_HEIGHT (min height MAX_HEIGHT) }

/-- The `height` setter: `max(MIN_HEIGHT, min(value, MAX_HEIGHT))`. -/
def setHeight (s : LabelStrip) (value : ℚ) : LabelStrip :=
  { s with height := max MIN_HEIGHT (min value MAX_HEIGHT) }

/-- The `content_cell_width` setter: rejects `value <= 0`, stores
`round(value, 3)`, then pushes the stored value into every content
segment through the `Segment.width` setter.  (The setter cannot fail
there: the pushed value is nonnegative.) -/
def setContentCellWidth (s : LabelStrip) (value : ℚ) :
    Except StripError LabelStrip :=
  if value ≤ 0 then .error .contentCellWidth
  else do
    let w := pyRound3 value
    let segs ← s.content_segments.mapM (fun seg => seg.setWidth w)
    pure { s with content_cell_width := w, content_segments := segs }

/-- `set_start_segment`: negative width raises; positive width creates the
cap (with the strip's current default colors) or updates width and text in
place through the setters; width 0 removes the cap. -/
def setStartSegment (s : LabelStrip) (width : ℚ := 0) (text : String := "") :
    Except StripError LabelStrip :=
  if width < 0 then .error .startSegmentWidth
  else if width > 0 then
    match s.start_segment with
    | none => .ok { s with start_segment := some (StartSegment.make width text
        .NORMAL s.settings.default_text_color
        s.settings.default_background_color) }
    | some seg => do
        let seg' ← seg.setWidth width
        pure { s with start_segment := some { seg' with text := text } }
  else .ok { s with start_segment := none }

/-- `set_end_segment`: mirror image of `set_start_segment`. -/
def setEndSegment (s : LabelStrip) (width : ℚ := 0) (text : String := "") :
    Except StripError LabelStrip :=
  if width < 0 then .error .endSegmentWidth
  else if width > 0 then
    match s.end_segment with
    | none => .ok { s with end_segment := some (EndSegment.make width text
        .NORMAL s.settings.default_text_color
        s.settings.default_background_color) }
    | some seg => do
        let seg' ← seg.setWidth width
        pure { s with end_segment := some { seg' with text := text } }
  else .ok { s with end_segment := none }

/-- The fresh cell `set_content_segment_count` appends at 0-based
position `i`: id `str(i + 1)`, the shared content-cell width, empty text,
default format and the strip's default colors. -/
def freshCell (s : LabelStrip) (i : Nat) : Segment :=
  ContentSegment.make (toString (i + 1)) s.content_cell_width ""
    .NORMAL s.settings.default_text_color s.settings.default_background_color

/-- `set_content_segment_count`: negative count raises; a larger count
appends fresh cells with sequential 1-based ids; a smaller count truncates
from the end. -/
def setContentSegmentCount (s : LabelStrip) (count : Int) :
    Except StripError LabelStrip :=
  if count < 0 then .error .contentSegmentCount
  else
    let current := s.content_segments.length
    let n := count.toNat
    if n > current then
      let fresh := (List.range (n - current)).map
        (fun j => s.freshCell (current + j))
      .ok { s with content_segments := s.content_segments ++ fresh }
    else if n < current then
      .ok { s with content_segments := s.content_segments.take n }
    else .ok s

/-- `get_all_segments`: `[start?] ++ contents ++ [end?]`. -/
def getAllSegments (s : LabelStrip) : List Segment :=
  s.start_segment.toList ++ s.content_segments ++ s.end_segment.toList

/-- `get_total_width`: cap widths plus `len(content_segments) *
content_cell_width` — the content part uses the shared width, not the
cells' own widths. -/
def getTotalWidth (s : LabelStrip) : ℚ :=
  (match s.start_segment with | some seg => seg.width | none => 0)
    + s.content_segments.length * s.content_cell_width
    + (match s.end_segment with | some seg => seg.width | none => 0)

/-- `get_segment_by_id`: first match over start, contents, end. -/
def getSegmentById (s : LabelStrip) (segment_id : String) : Option Segment :=
  match s.start_segment with
  | some seg => if seg.id = segment_id then some seg else
      match s.content_segments.find? (fun c => c.id = segment_id) with
      | some c => some c
      | none => match s.end_segment with
        | some e => if e.id = segment_id then some e else none
        | none => none
  | none =>
      match s.content_segments.find? (fun c => c.id = segment_id) with
      | some c => some c
      | none => match s.end_segment with
        | some e => if e.id = segment_id then some e else none
        | none => none

/-- A width assignment `strip.get_segment_by_id(i).width = w`, i.e. a
mutation through the shared segment reference the strip hands out; it goes
through the `Segment.width` setter.  No-op when the id is not found. -/
def mutateSegmentWidth (s : LabelStrip) (segment_id : String) (w : ℚ) :
    Except StripError LabelStrip :=
  match s.start_segment with
  | some seg =>
    if seg.id = segment_id then do
      let seg' ← seg.setWidth w
      pure { s with start_segment := some seg' }
    else mutateRest s segment_id w
  | none => mutateRest s segment_id w
where
  /-- Mutation hitting a content cell or the end cap. -/
  mutateRest (s : LabelStrip) (segment_id : String) (w : ℚ) :
      Except StripError LabelStrip :=
    if (s.content_segments.find? (fun c => c.id = segment_id)).isSome then do
      let segs ← s.content_segments.mapM (fun c =>
        if c.id = segment_id then c.setWidth w else .ok c)
      pure { s with content_segments := segs }
    else
      match s.end_segment with
      | some e =>
        if e.id = segment_id then do
          let e' ← e.setWidth w
          pure { s with end_segment := some e' }
        else .ok s
      | none => .ok s

/-- `LabelStrip.to_dict`: height, shared content-cell width, the segment
dictionaries in `[start?] ++ contents ++ [end?]` order (each tagged by its
variant's `get_type()`), and the settings dictionary. -/
def to_dict (s : LabelStrip) : StripDict :=
  { height := some s.height,
    content_cell_width := some s.content_cell_width,
    segments := some ((s.start_segment.toList.map (Segment.to_dict "start"))
      ++ (s.content_segments.map (Segment.to_dict "content"))
      ++ (s.end_segment.toList.map (Segment.to_dict "end"))),
    settings := some s.settings.to_dict }

/-- The segment-loading loop of `LabelStrip.from_dict`: each dictionary is
routed through `create_segment_from_dict` and then assigned by its `type`
tag (`"start"` and `"end"` overwrite the cap, `"content"` appends).  The
`isinstance` defensive checks of the Python loop cannot fire because the
factory routes on the same lowered tag, so they are not modelled as a
failure path. -/
def loadSegments : List SegmentDict → LabelStrip → Option LabelStrip
  | [], st => some st
  | d :: rest, st =>
    match create_segment_from_dict d with
    | none => none
    | some seg =>
      loadSegments rest
        (if pyLower (d.type.getD "") = "start" then
          { st with start_segment := some seg }
        else if pyLower (d.type.getD "") = "end" then
          { st with end_segment := some seg }
        else if pyLower (d.type.getD "") = "content" then
          { st with content_segments := st.content_segments ++ [seg] }
        else st)

/-- `LabelStrip.from_dict`: builds a strip from the clamped height, writes
`content_cell_width` directly (bypassing the validating setter), loads the
settings when present, then loads the segments. -/
def from_dict (data : StripDict) : Option LabelStrip := do
  let strip0 := init (data.height.getD 5)
  let strip1 := { strip0 with
    content_cell_width := data.content_cell_width.getD 10 }
  let strip2 ← match data.settings with
    | some sd => do
        let st ← StripSettings.from_dict sd
        pure { strip1 with settings := st }
    | none => pure strip1
  loadSegments (data.segments.getD []) strip2

end LabelStrip

/-- Both colors of a segment satisfy the `Color` data-model invariant. -/
def Segment.ColorsValid (s : Segment) : Prop :=
  s.text_color.Valid ∧ s.background_color.Valid

instance : DecidablePred Segment.ColorsValid := fun s => by
  unfold Segment.ColorsValid; infer_instance

/-- Both default colors of a settings aggregate are in the byte range. -/
def StripSettings.ColorsValid (s : StripSettings) : Prop :=
  s.default_text_color.Valid ∧ s.default_background_color.Valid

instance : DecidablePred StripSettings.ColorsValid := fun s => by
  unfold StripSettings.ColorsValid; infer_instance

namespace LabelStrip

/-- The validity conditions named by the round-trip contract: height in
range, positive shared content-cell width, no negative segment width. -/
def Valid (s : LabelStrip) : Prop :=
  MIN_HEIGHT ≤ s.height ∧ s.height ≤ MAX_HEIGHT ∧
  0 < s.content_cell_width ∧
  ∀ seg ∈ s.getAllSegments, 0 ≤ seg.width

instance : DecidablePred Valid := fun s => by
  unfold Valid; infer_instance

/-- The structural data-model invariants every strip built through the
Python constructors satisfies: byte-range colors everywhere (`Color` is an
RGB triple of `uint8`), and the fixed variant ids `"L_START"` / `"L_END"`
on the caps. -/
def WellFormed (s : LabelStrip) : Prop :=
  (∀ seg ∈ s.getAllSegments, seg.ColorsValid) ∧
  s.settings.ColorsValid ∧
  (∀ seg, s.start_segment = some seg → seg.id = "L_START") ∧
  (∀ seg, s.end_segment = some seg → seg.id = "L_END")

instance : DecidablePred WellFormed := fun s => by
  unfold WellFormed; infer_instance

/-- The spec's reading of `totalWidth()`: the sum of the widths of the
segments returned by `allSegments()`, each content cell counted at its own
stored width.  (Stated from the spec for comparison with `getTotalWidth`,
which is translated from the code.) -/
def specTotalWidth (s : LabelStrip) : ℚ :=
  (s.getAllSegments.map Segment.width).sum

end LabelStrip

/-- A concrete strip witnessing that `get_total_width` ignores a content
cell's own (mutated) width: one content cell, shared width 10, the cell's
width individually set to 7 through the width setter
(`strip.get_segment_by_id("1").width = 7`). -/
def stripDivergedCell : LabelStrip :=
  match (LabelStrip.init 5).setContentSegmentCount 1 with
  | .ok s =>
    match s.mutateSegmentWidth "1" 7 with
    | .ok s' => s'
    | .error _ => s
  | .error _ => LabelStrip.init 5

/-- A strip built by the mutators used in the witnesses below: height 8,
two content cells, a start cap `20mm/"Start"` and an end cap `15mm/"End"`. -/
def sampleStrip : LabelStrip :=
  let s0 := LabelStrip.init 8
  let s1 := match s0.setContentSegmentCount 2 with | .ok t => t | .error _ => s0
  let s2 := match s1.setStartSegment 20 "Start" with | .ok t => t | .error _ => s1
  match s2.setEndSegment 15 "End" with | .ok t => t | .error _ => s2

/-- A document whose numeric fields violate the width invariants: shared
content-cell width `-5`, one content segment of width `-3`. -/
def badDocument : StripDict :=
  { height := some 5,
    content_cell_width := some (-5),
    segments := some [{ id := some "1", type := some "content",
                        text := some "x", width := some (-3),
                        text_format := some "NORMAL",
                        text_color := some "#000000",
                        background_color := some "#FFFFFF" }],
    settings := none }

/-- The strip `LabelStrip.from_dict` builds from `badDocument`. -/
def loadedBadStrip : LabelStrip :=
  (LabelStrip.from_dict badDocument).getD (LabelStrip.init 5)

/-! ## Properties -/

attribute [local semireducible] Rat.mul Rat.add Rat.sub Rat.inv Rat.ofScientific

theorem pyRound3_exists_int (q : ℚ) : ∃ k : ℤ, pyRound3 q = (k : ℚ) / 1000 := by
  unfold pyRound3
  split
  · exact ⟨_, rfl⟩
  split
  · exact ⟨_, rfl⟩
  split
  · exact ⟨_, rfl⟩
  · exact ⟨_, rfl⟩

theorem pyRound3_int_div (k : ℤ) : pyRound3 ((k : ℚ) / 1000) = (k : ℚ) / 1000 := by
  unfold pyRound3
  have h1000 : ((k : ℚ) / 1000) * 1000 = (k : ℚ) := by
    field_simp
  simp only [h1000, Int.floor_intCast]
  norm_num

theorem pyRound3_idem (q : ℚ) : pyRound3 (pyRound3 q) = pyRound3 q := by
  obtain ⟨k, hk⟩ := pyRound3_exists_int q
  rw [hk, pyRound3_int_div]

theorem pyRound3_nonneg {q : ℚ} (h : 0 ≤ q) : 0 ≤ pyRound3 q := by
  have hfl : (0 : ℤ) ≤ ⌊q * 1000⌋ := by
    apply Int.floor_nonneg.mpr
    positivity
  unfold pyRound3
  split
  · positivity
  split
  · have : (0 : ℚ) ≤ ((⌊q * 1000⌋ + 1 : ℤ) : ℚ) := by exact_mod_cast by omega
    positivity
  split
  · positivity
  · have : (0 : ℚ) ≤ ((⌊q * 1000⌋ + 1 : ℤ) : ℚ) := by exact_mod_cast by omega
    positivity

/-- `mapM` of a pointwise-successful function is the successful `map`. -/
theorem mapM_ok {ε α β : Type} (f : α → Except ε β) (g : α → β) :
    ∀ l : List α, (∀ a ∈ l, f a = .ok (g a)) → l.mapM f = .ok (l.map g) := by
  intro l
  induction l with
  | nil => intro _; rfl
  | cons a t ih =>
    intro h
    rw [List.mapM_cons, h a (by simp), List.map_cons]
    have ht := ih (fun x hx => h x (by simp [hx]))
    rw [ht]
    rfl

theorem sum_map_const_width (c : ℚ) :
    ∀ l : List Segment, (∀ seg ∈ l, seg.width = c) →
      (l.map Segment.width).sum = l.length * c := by
  intro l
  induction l with
  | nil => intro _; simp
  | cons a t ih =>
    intro h
    have ha := h a (by simp)
    have ht := ih (fun x hx => h x (by simp [hx]))
    simp [ha, ht]
    ring

/-- A hex digit is not whitespace (so `int` trimming keeps it). -/
theorem hexDigit_not_space {c : Char} (h : (hexDigitVal c).isSome) :
    isPySpace c = false := by
  by_contra hsp
  rw [Bool.not_eq_false, isPySpace] at hsp
  simp only [Bool.or_eq_true, beq_iff_eq] at hsp
  rcases hsp with ((((h1 | h1) | h1) | h1) | h1) | h1 <;> subst h1 <;>
    exact absurd h (by decide)

/-- A hex digit is not `#` nor a sign character. -/
theorem hexDigit_ne {c : Char} (h : (hexDigitVal c).isSome) :
    c ≠ '#' ∧ c ≠ '+' ∧ c ≠ '-' := by
  refine ⟨?_, ?_, ?_⟩ <;> intro he <;> subst he <;> exact absurd h (by decide)

/-- `int(s, 16)` on a two-hex-digit string. -/
theorem pyIntHex_two_digits (a b : Char) {va vb : Nat}
    (ha : hexDigitVal a = some va) (hb : hexDigitVal b = some vb) :
    pyIntHex (String.mk [a, b]) = some ((va * 16 + vb : Nat) : Int) := by
  have hsa := hexDigit_not_space (c := a) (by rw [ha]; rfl)
  have hsb := hexDigit_not_space (c := b) (by rw [hb]; rfl)
  obtain ⟨-, hap, ham⟩ := hexDigit_ne (c := a) (by rw [ha]; rfl)
  unfold pyIntHex pyTrim
  rw [show (String.mk [a, b]).toList = [a, b] from rfl,
    List.dropWhile_cons_of_neg (by simp [hsa]),
    show ([a, b] : List Char).reverse = [b, a] from rfl,
    List.dropWhile_cons_of_neg (by simp [hsb]),
    show ([b, a] : List Char).reverse = [a, b] from rfl]
  dsimp only
  rw [if_neg hap, if_neg ham]
  rw [show parseHexNat [a, b] =
    [a, b].foldlM (fun acc c => (hexDigitVal c).map (fun d => acc * 16 + d)) 0
    from rfl]
  simp [List.foldlM, ha, hb]

set_option maxRecDepth 100000 in
/-- For every byte value, `f"{n:02x}"` yields two characters, the first
not `#`, and `int(·, 16)` parses the string back to the byte. -/
theorem byteHex : ∀ n : Fin 256,
    (format02x (n.val : Int)).toList.length = 2 ∧
    (format02x (n.val : Int)).toList.head? ≠ some '#' ∧
    pyIntHex (format02x (n.val : Int)) = some ((n.val : Int)) := by decide

/-- Parsing a serialized color recovers it, channel by channel, whenever
the channels are in the byte range. -/
theorem from_hex_to_hex (c : Color) (h : c.Valid) :
    Color.from_hex c.to_hex = some c := by
  obtain ⟨hr0, hr1, hg0, hg1, hb0, hb1⟩ := h
  have hr := byteHex ⟨c.r.toNat, by omega⟩
  have hg := byteHex ⟨c.g.toNat, by omega⟩
  have hb := byteHex ⟨c.b.toNat, by omega⟩
  rw [show (((⟨c.r.toNat, by omega⟩ : Fin 256) : Fin 256).val : Int) = c.r
    from Int.toNat_of_nonneg hr0] at hr
  rw [show (((⟨c.g.toNat, by omega⟩ : Fin 256) : Fin 256).val : Int) = c.g
    from Int.toNat_of_nonneg hg0] at hg
  rw [show (((⟨c.b.toNat, by omega⟩ : Fin 256) : Fin 256).val : Int) = c.b
    from Int.toNat_of_nonneg hb0] at hb
  obtain ⟨r1, r2, hrl⟩ := List.length_eq_two.mp hr.1
  obtain ⟨g1, g2, hgl⟩ := List.length_eq_two.mp hg.1
  obtain ⟨b1, b2, hbl⟩ := List.length_eq_two.mp hb.1
  have hrs : format02x c.r = String.mk [r1, r2] := by
    conv_lhs => rw [show format02x c.r = String.mk (format02x c.r).toList
      from rfl]
    rw [hrl]
  have hgs : format02x c.g = String.mk [g1, g2] := by
    conv_lhs => rw [show format02x c.g = String.mk (format02x c.g).toList
      from rfl]
    rw [hgl]
  have hbs : format02x c.b = String.mk [b1, b2] := by
    conv_lhs => rw [show format02x c.b = String.mk (format02x c.b).toList
      from rfl]
    rw [hbl]
  have hr1hash : r1 ≠ '#' := by
    intro he
    apply hr.2.1
    rw [hrl, he]
    rfl
  unfold Color.to_hex Color.from_hex
  rw [show ("#" ++ format02x c.r ++ format02x c.g ++ format02x c.b).toList =
    '#' :: ((format02x c.r).toList ++ (format02x c.g).toList ++
      (format02x c.b).toList) by simp [String.toList, String.data_append],
    hrl, hgl, hbl,
    show ([r1, r2] ++ [g1, g2] ++ [b1, b2] : List Char) =
      [r1, r2, g1, g2, b1, b2] from rfl,
    List.dropWhile_cons_of_pos (by decide),
    List.dropWhile_cons_of_neg (by simp [hr1hash])]
  dsimp only
  rw [show pySlice (String.mk [r1, r2, g1, g2, b1, b2]) 0 2 =
      String.mk [r1, r2] from rfl,
    show pySlice (String.mk [r1, r2, g1, g2, b1, b2]) 2 4 =
      String.mk [g1, g2] from rfl,
    show pySlice (String.mk [r1, r2, g1, g2, b1, b2]) 4 6 =
      String.mk [b1, b2] from rfl,
    ← hrs, ← hgs, ← hbs, hr.2.2, hg.2.2, hb.2.2]
  rfl

/-- `PaperSize(p.value)` recovers the enum member. -/
theorem paperSize_round (p : PaperSize) : PaperSize.ofValue p.value = some p := by
  cases p <;> rfl

/-- `TextFormat[f.name.upper()]` recovers the enum member. -/
theorem textFormat_round (f : TextFormat) :
    TextFormat.ofName (pyUpper f.name) = f := by
  cases f <;> rfl

/-- Settings serialization round-trips when the default colors are in the
byte range. -/
theorem settings_round_trip (st : StripSettings) (h : st.ColorsValid) :
    StripSettings.from_dict st.to_dict = some st := by
  obtain ⟨htc, hbc⟩ := h
  unfold StripSettings.to_dict StripSettings.from_dict
  dsimp only [Option.getD]
  rw [paperSize_round, from_hex_to_hex _ htc, from_hex_to_hex _ hbc]
  rfl

/-- A serialized content segment is reconstructed exactly. -/
theorem content_round (seg : Segment) (h : seg.ColorsValid) :
    create_segment_from_dict (Segment.to_dict "content" seg) = some seg := by
  obtain ⟨htc, hbc⟩ := h
  unfold create_segment_from_dict ContentSegment.from_dict readTextFormat
  dsimp only [Segment.to_dict, Option.getD]
  rw [show pyLower "content" = "content" from rfl]
  rw [if_neg (by decide), if_pos rfl]
  rw [textFormat_round, from_hex_to_hex _ htc, from_hex_to_hex _ hbc]
  rfl

/-- A serialized start cap is reconstructed exactly (its id is pinned to
`"L_START"` by the constructor). -/
theorem start_round (seg : Segment) (h : seg.ColorsValid)
    (hid : seg.id = "L_START") :
    create_segment_from_dict (Segment.to_dict "start" seg) = some seg := by
  obtain ⟨htc, hbc⟩ := h
  unfold create_segment_from_dict StartSegment.from_dict readTextFormat
  dsimp only [Segment.to_dict, Option.getD]
  rw [show pyLower "start" = "start" from rfl, if_pos rfl]
  rw [textFormat_round, from_hex_to_hex _ htc, from_hex_to_hex _ hbc]
  unfold StartSegment.make
  rw [← hid]
  rfl

/-- A serialized end cap is reconstructed exactly. -/
theorem end_round (seg : Segment) (h : seg.ColorsValid)
    (hid : seg.id = "L_END") :
    create_segment_from_dict (Segment.to_dict "end" seg) = some seg := by
  obtain ⟨htc, hbc⟩ := h
  unfold create_segment_from_dict EndSegment.from_dict readTextFormat
  dsimp only [Segment.to_dict, Option.getD]
  rw [show pyLower "end" = "end" from rfl]
  rw [if_neg (by decide), if_neg (by decide), if_pos rfl]
  rw [textFormat_round, from_hex_to_hex _ htc, from_hex_to_hex _ hbc]
  unfold EndSegment.make
  rw [← hid]
  rfl

/-- The segment-loading loop distributes over list concatenation. -/
theorem loadSegments_append (l1 l2 : List SegmentDict) (st : LabelStrip) :
    LabelStrip.loadSegments (l1 ++ l2) st =
      (LabelStrip.loadSegments l1 st).bind
        (fun st' => LabelStrip.loadSegments l2 st') := by
  induction l1 generalizing st with
  | nil => rfl
  | cons d rest ih =>
    rw [List.cons_append]
    simp only [LabelStrip.loadSegments]
    cases hc : create_segment_from_dict d with
    | none => rfl
    | some seg =>
      dsimp only
      exact ih _

/-- Loading serialized content cells appends them, in order. -/
theorem loadSegments_content (cells : List Segment) (st : LabelStrip)
    (h : ∀ seg ∈ cells, seg.ColorsValid) :
    LabelStrip.loadSegments (cells.map (Segment.to_dict "content")) st =
      some { st with content_segments := st.content_segments ++ cells } := by
  induction cells generalizing st with
  | nil =>
    rw [List.map_nil, List.append_nil]
    rfl
  | cons seg rest ih =>
    rw [List.map_cons]
    unfold LabelStrip.loadSegments
    rw [content_round seg (h seg (by simp))]
    dsimp only
    rw [show pyLower ((Segment.to_dict "content" seg).type.getD "") =
      "content" from rfl]
    rw [if_neg (by decide), if_neg (by decide), if_pos rfl]
    rw [ih _ (fun x hx => h x (by simp [hx]))]
    simp [List.append_assoc]

/-- Loading a serialized start cap installs it. -/
theorem loadSegments_start (seg : Segment) (st : LabelStrip)
    (h : seg.ColorsValid) (hid : seg.id = "L_START") :
    LabelStrip.loadSegments [Segment.to_dict "start" seg] st =
      some { st with start_segment := some seg } := by
  unfold LabelStrip.loadSegments
  rw [start_round seg h hid]
  dsimp only
  rw [show pyLower ((Segment.to_dict "start" seg).type.getD "") =
    "start" from rfl]
  rw [if_pos rfl]
  rfl

/-- Loading a serialized end cap installs it. -/
theorem loadSegments_end (seg : Segment) (st : LabelStrip)
    (h : seg.ColorsValid) (hid : seg.id = "L_END") :
    LabelStrip.loadSegments [Segment.to_dict "end" seg] st =
      some { st with end_segment := some seg } := by
  unfold LabelStrip.loadSegments
  rw [end_round seg h hid]
  dsimp only
  rw [show pyLower ((Segment.to_dict "end" seg).type.getD "") =
    "end" from rfl]
  rw [if_neg (by decide), if_pos rfl]
  rfl

/-- A successful `Segment.width` setter call stores `round(v, 3)`. -/
theorem setWidth_ok (seg : Segment) {v : ℚ} (h : 0 ≤ v) :
    seg.setWidth v = .ok { seg with width := pyRound3 v } := by
  unfold Segment.setWidth
  rw [if_neg (not_lt.mpr h)]

namespace Claims

/-- C8: for every input `h`, the `height` setter (and the constructor's
height argument) never fails and stores `clamp(h, 5.0, 12.0)`: the result
is in `[5, 12]`, and equals `h` exactly when `h` is already in range. -/
theorem C8_height_clamped (s : LabelStrip) (h : ℚ) :
    (s.setHeight h).height = max 5 (min h 12) ∧
    (5 ≤ (s.setHeight h).height ∧ (s.setHeight h).height ≤ 12) ∧
    (5 ≤ h → h ≤ 12 → (s.setHeight h).height = h) ∧
    (LabelStrip.init h).height = max 5 (min h 12) := by
  refine ⟨rfl, ⟨le_max_left _ _, ?_⟩, ?_, rfl⟩
  · exact max_le (by norm_num [LabelStrip.MIN_HEIGHT]) (min_le_right _ _)
  · intro h5 h12
    show max LabelStrip.MIN_HEIGHT (min h LabelStrip.MAX_HEIGHT) = h
    rw [LabelStrip.MIN_HEIGHT, LabelStrip.MAX_HEIGHT, min_eq_left h12,
      max_eq_right h5]

theorem C8_height_clamped_witness :
    ((LabelStrip.init 5).setHeight 7).height = 7 ∧
    ((LabelStrip.init 5).setHeight 99).height = max 5 (min 99 12) :=
  ⟨(C8_height_clamped (LabelStrip.init 5) 7).2.2.1 (by norm_num) (by norm_num),
   (C8_height_clamped (LabelStrip.init 5) 99).1⟩

/-- C9: for every segment and `w ≥ 0`, the `width` setter stores
`round(w, 3)` (all other fields untouched); for `w < 0` it fails with the
negative-width error, leaving the segment unchanged. -/
theorem C9_setWidth_rounds (seg : Segment) (w : ℚ) :
    (0 ≤ w → seg.setWidth w = .ok { seg with width := pyRound3 w }) ∧
    (w < 0 → seg.setWidth w = .error .segmentWidth) := by
  unfold Segment.setWidth
  constructor
  · intro h
    rw [if_neg (not_lt.mpr h)]
  · intro h
    rw [if_pos h]

theorem C9_setWidth_rounds_witness :
    (StartSegment.make 3 "s").setWidth (10001/10000) =
      .ok { StartSegment.make 3 "s" with width := pyRound3 (10001/10000) } ∧
    (StartSegment.make 3 "s").setWidth (-1) = .error .segmentWidth :=
  ⟨(C9_setWidth_rounds (StartSegment.make 3 "s") (10001/10000)).1 (by norm_num),
   (C9_setWidth_rounds (StartSegment.make 3 "s") (-1)).2 (by norm_num)⟩

/-- C3 counterexample: constructing a `StartSegment` with a negative width
is not rejected — `StartSegment.__init__` writes `self._width` directly,
bypassing the validating setter, so the constructed segment carries
width `-5`. -/
theorem C3_counterexample :
    (StartSegment.make (-5) "cap").width = -5 ∧
    ¬ (0 ≤ (StartSegment.make (-5) "cap").width) := by
  constructor
  · rfl
  · norm_num [StartSegment.make]

/-- C3 amended: the width invariant is enforced by the `width` setter — a
negative argument is rejected and a successful call always leaves a
nonnegative width — but the constructors perform no validation, storing
their width argument verbatim, so a segment constructed with a negative
width is accepted with that width. -/
theorem C3_width_invariant_amended (seg : Segment) (w : ℚ) :
    (w < 0 → seg.setWidth w = .error .segmentWidth) ∧
    (∀ seg', seg.setWidth w = .ok seg' → 0 ≤ seg'.width) ∧
    (StartSegment.make w "cap").width = w := by
  refine ⟨?_, ?_, rfl⟩
  · intro h
    unfold Segment.setWidth
    rw [if_pos h]
  · intro seg' h
    unfold Segment.setWidth at h
    by_cases hw : w < 0
    · rw [if_pos hw] at h
      exact absurd h (by simp)
    · rw [if_neg hw] at h
      have : seg' = { seg with width := pyRound3 w } := by
        cases h; rfl
      rw [this]
      exact pyRound3_nonneg (not_lt.mp hw)

theorem C3_width_invariant_amended_witness :
    (StartSegment.make 20 "cap").setWidth (-3) = .error .segmentWidth :=
  (C3_width_invariant_amended (StartSegment.make 20 "cap") (-3)).1 (by norm_num)

/-- C1 counterexample: on a strip whose single content cell's width was
individually set to 7 (shared width 10), `get_total_width` returns
`1 * 10 = 10`, not the `allSegments()` width sum 7 — the code multiplies
the cell count by the shared width instead of summing cell widths. -/
theorem C1_counterexample :
    stripDivergedCell.getTotalWidth = 10 ∧
    stripDivergedCell.specTotalWidth = 7 ∧
    stripDivergedCell.getTotalWidth ≠ stripDivergedCell.specTotalWidth := by
  refine ⟨by decide, by decide, by decide⟩

/-- C1 amended: `get_total_width` is cap widths plus
`count * content_cell_width`; it equals the sum of the widths of
`get_all_segments()` exactly when every content cell's own width agrees
with the shared `content_cell_width` (e.g. when no cell width was
individually mutated since the last shared-width reset). -/
theorem C1_total_width_amended (s : LabelStrip)
    (h : ∀ seg ∈ s.content_segments, seg.width = s.content_cell_width) :
    s.getTotalWidth = s.specTotalWidth := by
  unfold LabelStrip.getTotalWidth LabelStrip.specTotalWidth
    LabelStrip.getAllSegments
  rw [List.map_append, List.map_append, List.sum_append, List.sum_append,
    sum_map_const_width s.content_cell_width s.content_segments h]
  cases s.start_segment <;> cases s.end_segment <;> simp [mul_comm]

theorem C1_total_width_amended_witness :
    sampleStrip.getTotalWidth = sampleStrip.specTotalWidth :=
  C1_total_width_amended sampleStrip (by decide)

/-- C10: deserialization performs no numeric validation — `from_dict` on
`badDocument` (shared content-cell width field `-5`, one content segment
with width field `-3`) succeeds, and the loaded strip violates both width
invariants. -/
theorem C10_from_dict_unvalidated :
    LabelStrip.from_dict badDocument = some loadedBadStrip ∧
    loadedBadStrip.content_cell_width = -5 ∧
    loadedBadStrip.content_cell_width ≤ 0 ∧
    (∃ seg ∈ loadedBadStrip.getAllSegments, seg.width = -3 ∧ seg.width < 0) := by
  refine ⟨by decide, by decide, by decide, by decide⟩

/-- C5: `set_start_segment` / `set_end_segment` fail on negative width
(state unchanged); positive width creates the cap with the strip's current
default colors when absent, or updates width (through the rounding setter)
and text in place, preserving format and colors, when present; width 0
removes the cap regardless of the text argument. -/
theorem C5_set_caps (s : LabelStrip) (w : ℚ) (t : String) :
    (w < 0 → s.setStartSegment w t = .error .startSegmentWidth ∧
      s.setEndSegment w t = .error .endSegmentWidth) ∧
    (0 < w → s.start_segment = none →
      s.setStartSegment w t = .ok { s with
        start_segment := some (StartSegment.make w t .NORMAL
                          s.settings.default_text_color
                          s.settings.default_background_color) }) ∧
    (0 < w → ∀ seg, s.start_segment = some seg →
      s.setStartSegment w t = .ok { s with
        start_segment := some { seg with width := pyRound3 w, text := t } }) ∧
    (s.setStartSegment 0 t = .ok { s with start_segment := none }) ∧
    (0 < w → s.end_segment = none →
      s.setEndSegment w t = .ok { s with
        end_segment := some (EndSegment.make w t .NORMAL
                        s.settings.default_text_color
                        s.settings.default_background_color) }) ∧
    (0 < w → ∀ seg, s.end_segment = some seg →
      s.setEndSegment w t = .ok { s with
        end_segment := some { seg with width := pyRound3 w, text := t } }) ∧
    (s.setEndSegment 0 t = .ok { s with end_segment := none }) := by
  unfold LabelStrip.setStartSegment LabelStrip.setEndSegment
  refine ⟨?_, ?_, ?_, ?_, ?_, ?_, ?_⟩
  · intro hneg
    rw [if_pos hneg, if_pos hneg]
    exact ⟨rfl, rfl⟩
  · intro hpos hnone
    rw [if_neg (not_lt.mpr hpos.le), if_pos hpos, hnone]
  · intro hpos seg hsome
    rw [if_neg (not_lt.mpr hpos.le), if_pos hpos, hsome]
    simp only [setWidth_ok seg hpos.le, bind, Except.bind]
    rfl
  · norm_num
  · intro hpos hnone
    rw [if_neg (not_lt.mpr hpos.le), if_pos hpos, hnone]
  · intro hpos seg hsome
    rw [if_neg (not_lt.mpr hpos.le), if_pos hpos, hsome]
    simp only [setWidth_ok seg hpos.le, bind, Except.bind]
    rfl
  · norm_num

theorem C5_set_caps_witness :
    ((LabelStrip.init 5).setStartSegment 20 "Start" = .ok
      { LabelStrip.init 5 with
          start_segment := some (StartSegment.make 20 "Start" .NORMAL
                            (LabelStrip.init 5).settings.default_text_color
                            (LabelStrip.init 5).settings.default_background_color) }) ∧
    (sampleStrip.setStartSegment 0 "x" =
      .ok { sampleStrip with start_segment := none }) ∧
    (sampleStrip.setStartSegment (-1) "x" = .error .startSegmentWidth) :=
  ⟨(C5_set_caps (LabelStrip.init 5) 20 "Start").2.1 (by norm_num) rfl,
   (C5_set_caps sampleStrip 0 "x").2.2.2.1,
   ((C5_set_caps sampleStrip (-1) "x").1 (by norm_num)).1⟩

/-- C6: the `content_cell_width` setter fails on `w <= 0` (state
unchanged); on `w > 0` it stores `round(w, 3)` and overwrites every
content cell's width with `round(w, 3)`, preserving each cell's other
fields and leaving caps, height and settings untouched. -/
theorem C6_setContentCellWidth (s : LabelStrip) (w : ℚ) :
    (w ≤ 0 → s.setContentCellWidth w = .error .contentCellWidth) ∧
    (0 < w → s.setContentCellWidth w = .ok { s with
      content_cell_width := pyRound3 w,
      content_segments := s.content_segments.map
        (fun seg => { seg with width := pyRound3 w }) }) := by
  unfold LabelStrip.setContentCellWidth
  constructor
  · intro h
    rw [if_pos h]
  · intro h
    rw [if_neg (not_le.mpr h)]
    have hmap := mapM_ok (fun seg => seg.setWidth (pyRound3 w))
      (fun seg => { seg with width := pyRound3 w }) s.content_segments ?_
    · simp only [bind, Except.bind, hmap]
      rfl
    · intro seg _
      dsimp only
      rw [setWidth_ok seg (pyRound3_nonneg h.le), pyRound3_idem]

/-- C7: `set_content_segment_count` fails on a negative count; otherwise
the resulting cell list is the first `n` old cells followed by fresh
default cells (ids continuing `"k+1"`, …, `"n"`, the shared width, the
strip's default colors) — so growing appends, shrinking truncates from the
end, the final count is `n`, and shrinking then regrowing to the original
count rebuilds fresh default cells rather than restoring discarded ones. -/
theorem C7_setContentSegmentCount (s : LabelStrip) (n : Int) :
    (n < 0 → s.setContentSegmentCount n = .error .contentSegmentCount) ∧
    (0 ≤ n → s.setContentSegmentCount n = .ok { s with
      content_segments := s.content_segments.take n.toNat ++
        (List.range (n.toNat - s.content_segments.length)).map
          (fun j => s.freshCell (s.content_segments.length + j)) }) ∧
    (0 ≤ n → ∀ s', s.setContentSegmentCount n = .ok s' →
      s'.content_segments.length = n.toNat) ∧
    (∀ m : Int, 0 ≤ m → m.toNat ≤ s.content_segments.length →
      ((s.setContentSegmentCount m).bind fun s₁ =>
          s₁.setContentSegmentCount (s.content_segments.length : Int)) =
        .ok { s with
          content_segments := s.content_segments.take m.toNat ++
            (List.range (s.content_segments.length - m.toNat)).map
              (fun j => s.freshCell (m.toNat + j)) }) := by
  have key : ∀ (t : LabelStrip) (k : Int), 0 ≤ k →
      t.setContentSegmentCount k = .ok { t with
        content_segments := t.content_segments.take k.toNat ++
          (List.range (k.toNat - t.content_segments.length)).map
            (fun j => t.freshCell (t.content_segments.length + j)) } := by
    intro t k hk
    unfold LabelStrip.setContentSegmentCount
    rw [if_neg (not_lt.mpr hk)]
    rcases lt_trichotomy t.content_segments.length k.toNat with hlt | heq | hgt
    · rw [if_pos hlt, List.take_of_length_le hlt.le]
    · rw [if_neg (by omega), if_neg (by omega), ← heq, List.take_length,
        Nat.sub_self, List.range_zero, List.map_nil, List.append_nil]
    · rw [if_neg (by omega), if_pos hgt,
        Nat.sub_eq_zero_of_le hgt.le, List.range_zero, List.map_nil,
        List.append_nil]
  refine ⟨?_, key s n, ?_, ?_⟩
  · intro hneg
    unfold LabelStrip.setContentSegmentCount
    rw [if_pos hneg]
  · intro h0 s' heq
    rw [key s n h0] at heq
    cases heq
    simp only [List.length_append, List.length_take, List.length_map,
      List.length_range]
    omega
  · intro m hm hmle
    rw [key s m hm, Nat.sub_eq_zero_of_le hmle, List.range_zero,
      List.map_nil, List.append_nil]
    simp only [Except.bind]
    rw [key _ (s.content_segments.length : Int) (by positivity)]
    have hlen : (s.content_segments.take m.toNat).length = m.toNat := by
      rw [List.length_take]
      omega
    rw [Int.toNat_natCast, hlen,
      List.take_of_length_le (le_of_eq_of_le hlen hmle)]
    rfl

theorem C7_setContentSegmentCount_witness :
    (sampleStrip.setContentSegmentCount (-1) = .error .contentSegmentCount) ∧
    (sampleStrip.setContentSegmentCount 3 = .ok { sampleStrip with
      content_segments := sampleStrip.content_segments.take 3 ++
        (List.range (3 - sampleStrip.content_segments.length)).map
          (fun j => sampleStrip.freshCell
            (sampleStrip.content_segments.length + j)) }) :=
  ⟨(C7_setContentSegmentCount sampleStrip (-1)).1 (by norm_num),
   (C7_setContentSegmentCount sampleStrip 3).2.1 (by norm_num)⟩

theorem C6_setContentCellWidth_witness :
    (sampleStrip.setContentCellWidth 0 = .error .contentCellWidth) ∧
    (sampleStrip.setContentCellWidth 8 = .ok { sampleStrip with
      content_cell_width := pyRound3 8,
      content_segments := sampleStrip.content_segments.map
        (fun seg => { seg with width := pyRound3 8 }) }) :=
  ⟨(C6_setContentCellWidth sampleStrip 0).1 (by norm_num),
   (C6_setContentCellWidth sampleStrip 8).2 (by norm_num)⟩

/-- C4 counterexample: `from_hex` does not fail on every wrong-length
input — `"#1234567"` has seven hex digits after the `#`, yet it parses
(the seventh digit is silently ignored), and the five-character `"FFFFF"`
also parses, with a one-digit blue group. -/
theorem C4_counterexample :
    Color.from_hex "#1234567" = some { r := 18, g := 52, b := 86 } ∧
    Color.from_hex "FFFFF" = some { r := 255, g := 255, b := 15 } := by
  exact ⟨by decide, by decide⟩

/-- C4 amended: `from_hex` parses the slices `[0:2]`, `[2:4]`, `[4:6]` of
the `#`-stripped input as hexadecimal integers, so every well-formed input
(an optional leading `#` followed by exactly six hex digits) parses to the
expected channels, and inputs that make a slice unparseable — such as
`"invalid"` — fail; but wrong-length input is not rejected as such:
characters beyond the first six are ignored and a five-character input
yields a one-digit blue group.  `to_hex` always produces lowercase
`"#rrggbb"`, so `from_hex("#FF0000").to_hex() = "#ff0000"`. -/
theorem C4_from_hex_amended :
    (∀ a1 a2 a3 a4 a5 a6 : Char, ∀ v1 v2 v3 v4 v5 v6 : Nat,
      hexDigitVal a1 = some v1 → hexDigitVal a2 = some v2 →
      hexDigitVal a3 = some v3 → hexDigitVal a4 = some v4 →
      hexDigitVal a5 = some v5 → hexDigitVal a6 = some v6 →
      Color.from_hex (String.mk ['#', a1, a2, a3, a4, a5, a6]) =
        some { r := ((v1 * 16 + v2 : Nat) : Int),
               g := ((v3 * 16 + v4 : Nat) : Int),
               b := ((v5 * 16 + v6 : Nat) : Int) } ∧
      Color.from_hex (String.mk [a1, a2, a3, a4, a5, a6]) =
        some { r := ((v1 * 16 + v2 : Nat) : Int),
               g := ((v3 * 16 + v4 : Nat) : Int),
               b := ((v5 * 16 + v6 : Nat) : Int) }) ∧
    Color.from_hex "invalid" = none ∧
    Color.from_hex "#FF0000" = some { r := 255, g := 0, b := 0 } ∧
    Color.to_hex { r := 255, g := 0, b := 0 } = "#ff0000" ∧
    Color.from_hex "#1234567" = some { r := 18, g := 52, b := 86 } := by
  refine ⟨?_, by decide, by decide, by decide, by decide⟩
  intro a1 a2 a3 a4 a5 a6 v1 v2 v3 v4 v5 v6 h1 h2 h3 h4 h5 h6
  obtain ⟨hna, -, -⟩ := hexDigit_ne (c := a1) (by rw [h1]; rfl)
  have core : Color.from_hex (String.mk [a1, a2, a3, a4, a5, a6]) =
      some { r := ((v1 * 16 + v2 : Nat) : Int),
             g := ((v3 * 16 + v4 : Nat) : Int),
             b := ((v5 * 16 + v6 : Nat) : Int) } := by
    unfold Color.from_hex
    rw [show (String.mk [a1, a2, a3, a4, a5, a6]).toList =
      [a1, a2, a3, a4, a5, a6] from rfl,
      List.dropWhile_cons_of_neg (by simp [hna])]
    dsimp only
    rw [show pySlice (String.mk [a1, a2, a3, a4, a5, a6]) 0 2 =
      String.mk [a1, a2] from rfl,
      show pySlice (String.mk [a1, a2, a3, a4, a5, a6]) 2 4 =
      String.mk [a3, a4] from rfl,
      show pySlice (String.mk [a1, a2, a3, a4, a5, a6]) 4 6 =
      String.mk [a5, a6] from rfl,
      pyIntHex_two_digits a1 a2 h1 h2, pyIntHex_two_digits a3 a4 h3 h4,
      pyIntHex_two_digits a5 a6 h5 h6]
    rfl
  refine ⟨?_, core⟩
  unfold Color.from_hex
  rw [show (String.mk ['#', a1, a2, a3, a4, a5, a6]).toList =
    '#' :: [a1, a2, a3, a4, a5, a6] from rfl,
    List.dropWhile_cons_of_pos (by decide),
    List.dropWhile_cons_of_neg (by simp [hna])]
  dsimp only
  unfold Color.from_hex at core
  rw [show (String.mk [a1, a2, a3, a4, a5, a6]).toList =
    [a1, a2, a3, a4, a5, a6] from rfl,
    List.dropWhile_cons_of_neg (by simp [hna])] at core
  dsimp only at core
  exact core

theorem C4_from_hex_amended_witness :
    Color.from_hex (String.mk ['#', 'A', 'b', 'C', 'd', '0', '9']) =
      some { r := ((10 * 16 + 11 : Nat) : Int),
             g := ((12 * 16 + 13 : Nat) : Int),
             b := ((0 * 16 + 9 : Nat) : Int) } :=
  ((C4_from_hex_amended.1 'A' 'b' 'C' 'd' '0' '9' 10 11 12 13 0 9
    (by decide) (by decide) (by decide) (by decide) (by decide)
    (by decide)).1)

/-- C2: serialization round-trip — `from_dict (to_dict s)` reproduces a
valid strip exactly (height, shared content-cell width, cap presence and
full cap attributes, every content cell's id/text/width/format/colors, and
all settings).  `Valid` is the claim's validity condition (height in
range, positive shared width, nonnegative segment widths); `WellFormed`
packages the data-model invariants every strip built through the Python
constructors has: byte-range color channels (`Color` is an RGB triple of
`uint8`) and the fixed cap ids `"L_START"` / `"L_END"`. -/
theorem C2_round_trip (s : LabelStrip) (hv : s.Valid) (hw : s.WellFormed) :
    LabelStrip.from_dict s.to_dict = some s := by
  obtain ⟨hmin, hmax, -, -⟩ := hv
  obtain ⟨hcolors, hsettings, hstartid, hendid⟩ := hw
  have hclamp : max LabelStrip.MIN_HEIGHT
      (min s.height LabelStrip.MAX_HEIGHT) = s.height := by
    rw [min_eq_left hmax, max_eq_right hmin]
  unfold LabelStrip.from_dict LabelStrip.to_dict
  dsimp only [Option.getD]
  rw [settings_round_trip s.settings hsettings]
  show LabelStrip.loadSegments
      (List.map (Segment.to_dict "start") s.start_segment.toList ++
        List.map (Segment.to_dict "content") s.content_segments ++
        List.map (Segment.to_dict "end") s.end_segment.toList)
      { height := (LabelStrip.init s.height).height,
        start_segment := (LabelStrip.init s.height).start_segment,
        end_segment := (LabelStrip.init s.height).end_segment,
        content_segments := (LabelStrip.init s.height).content_segments,
        content_cell_width := s.content_cell_width,
        settings := s.settings } = some s
  rw [loadSegments_append, loadSegments_append]
  have hstart : LabelStrip.loadSegments
      (s.start_segment.toList.map (Segment.to_dict "start"))
      { LabelStrip.init s.height with
        content_cell_width := s.content_cell_width,
        settings := s.settings } =
      some { height := s.height, start_segment := s.start_segment,
             end_segment := none, content_segments := [],
             content_cell_width := s.content_cell_width,
             settings := s.settings } := by
    cases hs : s.start_segment with
    | none =>
      show some _ = _
      unfold LabelStrip.init
      rw [hclamp]
    | some seg =>
      rw [Option.toList_some, List.map_cons, List.map_nil,
        loadSegments_start seg _
          (hcolors seg (by simp [LabelStrip.getAllSegments, hs]))
          (hstartid seg hs)]
      unfold LabelStrip.init
      rw [hclamp]
  rw [hstart]
  dsimp only [Option.bind]
  rw [loadSegments_content s.content_segments _
    (fun seg hseg => hcolors seg (by simp [LabelStrip.getAllSegments, hseg]))]
  dsimp only [Option.bind]
  cases he : s.end_segment with
  | none =>
    show some _ = _
    rw [← he]
    rfl
  | some seg =>
    rw [Option.toList_some, List.map_cons, List.map_nil,
      loadSegments_end seg _
        (hcolors seg (by simp [LabelStrip.getAllSegments, he]))
        (hendid seg he)]
    rw [← he]
    rfl

theorem C2_round_trip_witness :
    LabelStrip.from_dict sampleStrip.to_dict = some sampleStrip :=
  C2_round_trip sampleStrip (by decide) (by decide)

end Claims

end Jackfield
